import Mathlib

/-
Verification development for the car-selling dialogue bot (`bot.py`).

The dialogue engine of `bot.py` is shallowly embedded below: the per-turn
pipeline `process`, the state handlers, intent classification, the vehicle
filter, the retrieval fallback and the context update are translated into
executable Lean definitions.  Python's mutable `context.user_data` dictionary
becomes an explicit `Ctx` structure threaded through every function; Python
exceptions become `Except PyErr`; CPython string/truthiness semantics are
reproduced by small `py*` helpers.  External artifacts that the engine only
calls (the pickled classifier and vectorizers, the lemmatizer, the sentiment
analyzer, rapidfuzz scoring, the random source) are collected in an `Env`
record of oracle functions, and small helper functions that live in modules
not present in the sources (`utils.py`, `config.py`) are modelled from the
specification, as marked in their doc comments.
-/

namespace CarBot

/-! ## CPython-flavoured string and truthiness helpers -/

/-- Whether `pat` is a prefix of `l` (character lists). -/
def isPrefixList : List Char → List Char → Bool
  | [], _ => true
  | _ :: _, [] => false
  | p :: ps, c :: cs => p = c && isPrefixList ps cs

/-- Substring search on character lists: does `hay` contain `pat`? -/
def containsSubList (pat : List Char) : List Char → Bool
  | [] => isPrefixList pat []
  | c :: rest => isPrefixList pat (c :: rest) || containsSubList pat rest

/-- Python's `pat in hay` on strings. -/
def pyContains (hay pat : String) : Bool :=
  containsSubList pat.data hay.data

/-- One rewriting pass for `pyReplace`, with explicit fuel (the length of the
remaining text bounds the recursion). -/
def pyReplaceAux (pat rep : List Char) : Nat → List Char → List Char
  | _, [] => []
  | 0, l => l
  | fuel + 1, c :: rest =>
    if pat ≠ [] && isPrefixList pat (c :: rest) then
      rep ++ pyReplaceAux pat rep fuel ((c :: rest).drop pat.length)
    else
      c :: pyReplaceAux pat rep fuel rest

/-- Python's `s.replace(pat, rep)` for non-empty `pat`: replaces every
non-overlapping occurrence, left to right. -/
def pyReplace (s pat rep : String) : String :=
  ⟨pyReplaceAux pat.data rep.data s.data.length s.data⟩

/-- Whitespace tokenizer (Python's `str.split()` with no argument): splits on
spaces and drops empty fragments.  `cur` is the current word, reversed. -/
def tokensAux : List Char → List Char → List String
  | cur, [] => if cur.isEmpty then [] else [⟨cur.reverse⟩]
  | cur, c :: rest =>
    if c = ' ' then
      if cur.isEmpty then tokensAux [] rest else ⟨cur.reverse⟩ :: tokensAux [] rest
    else
      tokensAux (c :: cur) rest

/-- The whitespace tokens of a string, all non-empty. -/
def tokens (t : String) : List String :=
  tokensAux [] t.data

/-- Python's `', '.join` (and joins with other separators). -/
def joinWith (sep : String) : List String → String
  | [] => ""
  | [x] => x
  | x :: y :: rest => x ++ sep ++ joinWith sep (y :: rest)

/-- Python truthiness of an optional string (`None` and `""` are falsy). -/
def pyTruthyS : Option String → Bool
  | some s => s ≠ ""
  | none => false

/-- Python truthiness of an optional natural (`None` and `0` are falsy). -/
def pyTruthyN : Option Nat → Bool
  | some n => n ≠ 0
  | none => false

/-- Python's `a or b` where `a` is an optional string and `b` a string. -/
def pyOrS (o : Option String) (d : String) : String :=
  match o with
  | some s => if s = "" then d else s
  | none => d

/-- Python's `str` formatting of a string-or-`None` value inside an f-string. -/
def pyStrOpt : Option String → String
  | some s => s
  | none => "None"

/-- Python's `l[-n:]` slice on lists: for `n = 0` it is the whole list (the
CPython `-0` pitfall), otherwise the last `n` elements. -/
def pySliceLast (l : List String) (n : Nat) : List String :=
  if n = 0 then l else l.drop (l.length - n)

/-! ## Data model -/

/-- A Python exception escaping a call. -/
inductive PyErr : Type
  | nameError
  | keyError
  | indexError
  | typeError
  | valueError
deriving DecidableEq, Repr

/-- Coarse sentiment polarity (`utils.analyze_sentiment` result). -/
inductive Sentiment : Type
  | positive
  | negative
  | neutral
deriving DecidableEq, Repr

/-- A vehicle record of `CONFIG['cars']`: price, description, category tags.
Modelled from the spec: `config.py` is not among the sources; §3 defines a
Vehicle as identifier, integer price, description text and category tags. -/
structure Car : Type where
  price : Nat
  description : String
  categories : List String
deriving DecidableEq, Repr

/-- One entry of `CONFIG['intents']`: example phrases and response templates. -/
structure IntentData : Type where
  examples : List String
  responses : List String
deriving DecidableEq, Repr

/-- The per-session resolution counters kept under `user_data['stats']`. -/
structure StatsD : Type where
  intent : Nat
  generate : Nat
  failure : Nat
deriving DecidableEq, Repr

/-- The per-user session context (`context.user_data`), with every key
initialized, matching the state after `_update_context`'s `setdefault`s. -/
structure Ctx : Type where
  state : String
  current_car : Option String
  last_bot_response : Option String
  last_intent : Option String
  history : List String
  stats : StatsD
deriving DecidableEq, Repr

/-- The static configuration `CONFIG`.  Modelled from the spec: `config.py`
is not among the sources; §3 lists the vehicle mapping, the intent mapping,
failure templates, the two thresholds and the history bound; the retrieval
answers are the loaded `dialogues_answers` artifact. -/
structure Config : Type where
  cars : List (String × Car)
  intents : List (String × IntentData)
  failure_phrases : List String
  intent_score : ℚ
  dialogues_similarity : ℚ
  history_limit : Nat
  answers : List String

/-- The external artifacts and the random source the engine calls through:
the lemmatizer, sentiment analyzer, statistical classifier, rapidfuzz
`extractOne` best score, the retrieval cosine-similarity row, `random.choice`
(`pick`), `random.sample` (`sample`) and the two probability gates.
`clfConfidence` is modelled from the spec: §4.3 speaks of the statistical
prediction's own confidence, which the artifact interface of §6
(`predict` only) does not expose. -/
structure Env : Type where
  lemmatize : String → String
  analyze_sentiment : String → Sentiment
  clfPredict : String → String
  clfConfidence : String → ℚ
  extractOneScore : String → List String → ℚ
  sims : String → List ℚ
  pick : List String → String
  sample : List String → Nat → List String
  coin02 : Bool
  coin03 : Bool

instance {ε α : Type} [DecidableEq ε] [DecidableEq α] : DecidableEq (Except ε α)
  | .error e, .error f =>
    match decEq e f with
    | isTrue h => isTrue (by rw [h])
    | isFalse h => isFalse (fun hh => by cases hh; exact h rfl)
  | .error _, .ok _ => isFalse (fun hh => by cases hh)
  | .ok _, .error _ => isFalse (fun hh => by cases hh)
  | .ok a, .ok b =>
    match decEq a b with
    | isTrue h => isTrue (by rw [h])
    | isFalse h => isFalse (fun hh => by cases hh; exact h rfl)

/-- Division of a rational by 100, written so that the kernel can evaluate it
(`Rat.div` does not reduce definitionally); `div100_eq` proves it equal to
ordinary division by 100. -/
def div100 (x : ℚ) : ℚ :=
  mkRat x.num (x.den * 100)

theorem div100_eq (x : ℚ) : div100 x = x / 100 := by
  rw [div100, Rat.mkRat_eq_div]
  push_cast
  rw [div_mul_eq_div_div, Rat.num_div_den]

/-- `random.choice`: raises `IndexError` on an empty sequence, otherwise the
random source picks an element. -/
def pyChoice (env : Env) (l : List String) : Except PyErr String :=
  if l.isEmpty then .error .indexError else .ok (env.pick l)

/-- `random.sample(pop, k)`: raises `ValueError` when `k` exceeds the
population size, otherwise the random source picks `k` elements. -/
def pySample (env : Env) (l : List String) (k : Nat) : Except PyErr (List String) :=
  if l.length < k then .error .valueError else .ok (env.sample l k)

/-- The identifiers of `CONFIG['cars']` in iteration order. -/
def carKeys (cfg : Config) : List String :=
  cfg.cars.map Prod.fst

/-- All category tags over all vehicles (the flattened comprehension used by
the `car_types` branches). -/
def allCategories (cfg : Config) : List String :=
  cfg.cars.foldr (fun p acc => p.2.categories ++ acc) []

/-- The vehicles carrying a given category tag (the recurring comprehension
`[car for car, data in cars if cat in data.get('categories', [])]`). -/
def carsInCategory (cfg : Config) (cat : String) : List String :=
  (cfg.cars.filter (fun p => p.2.categories.contains cat)).map Prod.fst

/-! ## Modelled `utils.py` helpers -/

/-- Modelled from the spec: `utils.is_meaningful_text` is not among the
sources; §4.1 rejects pure-noise input (empty after normalization / no
informative token); modelled as the existence of a whitespace token, with the
stoplist taken as empty. -/
def is_meaningful_text (t : String) : Bool :=
  ¬ (tokens t).isEmpty

/-- Numeric value of a digit string. -/
def natOfDigits (w : String) : Nat :=
  w.data.foldl (fun n c => n * 10 + (c.toNat - 48)) 0

/-- Modelled from the spec: `utils.extract_price` is not among the sources;
§4.2 parses the first numeric token and returns none if absent or
non-positive. -/
def extract_price (t : String) : Option Nat :=
  match (tokens t).find? (fun w => w.data.all Char.isDigit) with
  | none => none
  | some w => if natOfDigits w > 0 then some (natOfDigits w) else none

/-- Modelled from the spec: `utils.extract_car_category` is not among the
sources; §4.2 matches the normalized text against the category tags present
in the Catalog; modelled as the first catalog tag occurring as a token. -/
def extract_car_category (cfg : Config) (t : String) : Option String :=
  (allCategories cfg).find? (fun cat => (tokens t).contains cat)

/-- Modelled from the spec: `utils.extract_car_name` is not among the
sources; §4.2 approximately matches the text against Catalog vehicle
identifiers, accepting only a threshold-clearing match; modelled as the first
catalog key occurring as a token, which yields catalog keys only. -/
def extract_car_name (cfg : Config) (t : String) : Option String :=
  (carKeys cfg).find? (fun c => (tokens t).contains c)

/-- Modelled from the spec: `utils.Stats.add` is not among the sources; §4.7
increments the per-session counter keyed by the resolution tag. -/
def statsAdd (s : StatsD) (tag : String) : StatsD :=
  if tag = "intent" then { s with intent := s.intent + 1 }
  else if tag = "generate" then { s with generate := s.generate + 1 }
  else if tag = "failure" then { s with failure := s.failure + 1 }
  else s

/-! ## The dialogue engine (`Bot`) -/

/-- `Bot._update_context` (bot.py:71-83): appends the utterance to the
history, trims to the bound (`hist[-limit:]`), records the reply, and sets
`last_intent` only when a truthy intent is given. -/
def update_context (cfg : Config) (ctx : Ctx) (replica : String) (answer : Option String)
    (intent : Option String) : Ctx :=
  { ctx with
    history := pySliceLast (ctx.history ++ [replica]) cfg.history_limit,
    last_bot_response := answer,
    last_intent := if pyTruthyS intent then intent else ctx.last_intent }

/-- The lemmatized, non-empty example phrases of one intent
(bot.py:95). -/
def lemExamples (env : Env) (d : IntentData) : List String :=
  (d.examples.map env.lemmatize).filter (fun e => e ≠ "")

/-- One iteration of the best-example-match loop of `Bot.classify_intent`
(bot.py:94-101). -/
def bestStep (env : Env) (cfg : Config) (rl : String) (acc : ℚ × Option String)
    (p : String × IntentData) : ℚ × Option String :=
  let exs := lemExamples env p.2
  if exs.isEmpty then acc
  else
    let sc := div100 (env.extractOneScore rl exs)
    if sc > acc.1 ∧ sc ≥ cfg.intent_score then (sc, some p.1) else acc

/-- The final `(best_score, best_intent)` of `Bot.classify_intent`'s loop. -/
def bestPair (env : Env) (cfg : Config) (rl : String) : ℚ × Option String :=
  cfg.intents.foldl (bestStep env cfg rl) (0, none)

/-- `Bot.classify_intent` (bot.py:85-104).  The final line parses as
`(best_intent or intent) if best_score >= threshold else None`. -/
def classify_intent (env : Env) (cfg : Config) (replica : String) : Option String :=
  let rl := env.lemmatize replica
  if rl = "" then none
  else
    let intent := env.clfPredict rl
    let bp := bestPair env cfg rl
    if bp.1 ≥ cfg.intent_score then some (pyOrS bp.2 intent) else none

/-- `Bot._get_car_response` (bot.py:106-123). -/
def get_car_response (env : Env) (cfg : Config) (intent : String) (car_name : Option String)
    (replica : String) : Except PyErr String :=
  let found := match car_name with
    | some c => cfg.cars.lookup c
    | none => none
  match found with
  | none => .ok "Извините, такой машины нет в наличии."
  | some car_data =>
    match cfg.intents.lookup intent with
    | none => .error .keyError
    | some idata =>
      match pyChoice env idata.responses with
      | .error e => .error e
      | .ok answer0 =>
        let cn := car_name.getD ""
        let a1 := pyReplace answer0 "[car_name]" cn
        let a2 := pyReplace a1 "[price]" (toString car_data.price)
        let a3 := pyReplace a2 "[description]" car_data.description
        let stm := env.analyze_sentiment replica
        let a4 :=
          if stm = .positive then a3 ++ " Рад, что вам нравится! 😊"
          else if stm = .negative then a3 ++ " Кажется, вы сомневаетесь. Может, тест-драйв поможет? 😊"
          else a3
        .ok (a4 ++ " Что ещё интересует?")

/-- The most-recent-first history scan of `Bot._find_car_by_context`
(bot.py:136-146), applied to the reversed history. -/
def scanHist (env : Env) (cfg : Config) : List String → Option String
  | [] => none
  | h :: rest =>
    match extract_car_name cfg h with
    | some c => some c
    | none =>
      match extract_car_category cfg h with
      | some cat =>
        if (carsInCategory cfg cat).isEmpty then scanHist env cfg rest
        else some (env.pick (carsInCategory cfg cat))
      | none => scanHist env cfg rest

/-- `Bot._find_car_by_context` (bot.py:125-147). -/
def find_car_by_context (env : Env) (cfg : Config) (replica : String) (ctx : Ctx) :
    Option String :=
  let last_response := ctx.last_bot_response
  let car_category := extract_car_category cfg replica
  if pyTruthyS last_response && pyContains (last_response.getD "") "Кстати, у нас есть" then
    extract_car_name cfg (last_response.getD "")
  else
    match car_category with
    | some cat =>
      if (carsInCategory cfg cat).isEmpty then none
      else some (env.pick (carsInCategory cfg cat))
    | none =>
      if ctx.last_intent = some "car_types" then scanHist env cfg ctx.history.reverse
      else none

/-- The price/category test of the filter comprehension (bot.py:151-155),
with Python truthiness for the absent constraints. -/
def matchesFilter (price : Option Nat) (cat : Option String) (p : String × Car) : Bool :=
  (!pyTruthyN price || decide (p.2.price ≤ price.getD 0)) &&
  (!pyTruthyS cat || p.2.categories.contains (cat.getD ""))

/-- The vehicles surviving both the price/category filter and the
recent-history exclusion of `Bot._handle_filter_cars` (bot.py:151-157). -/
def filteredCars (cfg : Config) (price : Option Nat) (cat : Option String)
    (history : List String) : List String :=
  let suitable := (cfg.cars.filter (matchesFilter price cat)).map Prod.fst
  let recent := history.map (extract_car_name cfg)
  suitable.filter (fun c => ! recent.contains (some c))

/-- `Bot._handle_filter_cars` (bot.py:149-173). -/
def handle_filter_cars (env : Env) (cfg : Config) (price : Option Nat) (cat : Option String)
    (ctx : Ctx) : String × Ctx :=
  let suitable := filteredCars cfg price cat ctx.history
  if suitable.isEmpty then
    let conds :=
      (if pyTruthyN price then ["до " ++ toString (price.getD 0) ++ " рублей"] else []) ++
      (if pyTruthyS cat then ["в категории " ++ cat.getD ""] else [])
    ("Извините, нет машин для " ++ joinWith ", " conds ++ ".", ctx)
  else
    let cars_list := joinWith ", " suitable
    if !pyTruthyN price && !pyTruthyS cat then
      let car_name := env.pick suitable
      ("Советую " ++ car_name ++ "! Хотите узнать цену или характеристики?",
        { ctx with current_car := some car_name, state := "WAITING_FOR_INTENT" })
    else
      ("Вот что нашлось: " ++ cars_list ++ ".", ctx)

/-- The `elif` chain over non-car-specific intents in `Bot.get_answer_by_intent`
(bot.py:208-255), producing the reply text and the mutated context;
`car_name` and `last_intent` are the values read at bot.py:177-178. -/
def intent_branch (env : Env) (cfg : Config) (intent : String) (answer0 : String)
    (car_category : Option String) (price : Option Nat) (car_name : Option String)
    (last_intent : Option String) (sentiment_suffix : String) (ctx : Ctx) :
    Except PyErr (String × Ctx) :=
  if intent = "car_recommendation" then
    .ok (handle_filter_cars env cfg none car_category ctx)
  else if intent = "filter_cars" then
    .ok (handle_filter_cars env cfg price car_category ctx)
  else if intent = "car_types" then
    match pySample env (allCategories cfg) (min 3 cfg.cars.length) with
    | .error e => .error e
    | .ok cats =>
      match pySample env (carKeys cfg) (min 2 cfg.cars.length) with
      | .error e => .error e
      | .ok cars =>
        .ok ("У нас есть " ++ joinWith ", " cats.dedup ++ " и модели вроде " ++
             joinWith ", " cars ++ ". Что интересно?" ++ sentiment_suffix,
           { ctx with current_car := none })
  else if intent = "compare_cars" then
    match pyChoice env (carKeys cfg) with
    | .error e => .error e
    | .ok car1 =>
      match pyChoice env ((carKeys cfg).filter (fun c => c ≠ car1)) with
      | .error e => .error e
      | .ok car2 =>
        .ok (pyReplace (pyReplace answer0 "[car1]" car1) "[car2]" car2 ++
             " Что интересует: " ++ car1 ++ " или " ++ car2 ++ "?" ++ sentiment_suffix,
           { ctx with current_car := some car1 })
  else if intent = "yes" then
    if last_intent = some "hello" then
      match pySample env (allCategories cfg) (min 3 cfg.cars.length) with
      | .error e => .error e
      | .ok cats =>
        .ok ("Отлично! У нас есть " ++ joinWith ", " cats.dedup ++
             ". Что хотите узнать?" ++ sentiment_suffix, ctx)
    else if last_intent = some "car_price" ∨ last_intent = some "car_info" ∨
            last_intent = some "car_availability" ∨
            last_intent = some "book_test_drive" then
      if pyTruthyS car_name then
        match cfg.cars.lookup (car_name.getD "") with
        | none => .error .keyError
        | some cd =>
          .ok ("Цена на " ++ car_name.getD "" ++ " — " ++ toString cd.price ++
               " рублей. Что ещё интересует?" ++ sentiment_suffix, ctx)
      else
        .ok ("Назови машину, чтобы я рассказал подробнее!" ++ sentiment_suffix, ctx)
    else if last_intent = some "offtopic" then
      .ok ("Хорошо, давай продолжим! Хочешь узнать про авто?" ++ sentiment_suffix, ctx)
    else
      .ok ("Хорошо, что интересует? Модели, цены или тест-драйв?" ++ sentiment_suffix, ctx)
  else if intent = "no" then
    .ok ("Хорошо, какую машину обсудим теперь?" ++ sentiment_suffix,
         { ctx with current_car := none, state := "NONE" })
  else
    .ok (answer0, ctx)

/-- `Bot.get_answer_by_intent` (bot.py:175-261).  The `filter_cars`-without-
slots early return (bot.py:215) is hoisted before the branch chain, which is
faithful because the chain branches on disjoint intent values. -/
def get_answer_by_intent (env : Env) (cfg : Config) (intent : String) (replica : String)
    (ctx : Ctx) : Except PyErr (Option String × Ctx) :=
  let car_name := ctx.current_car
  let last_intent := ctx.last_intent
  let car_category := extract_car_category cfg replica
  let price := extract_price replica
  match cfg.intents.lookup intent with
  | none => .ok (none, ctx)
  | some idata =>
    if idata.responses.isEmpty then .ok (none, ctx)
    else
      match pyChoice env idata.responses with
      | .error e => .error e
      | .ok answer0 =>
        let stm := env.analyze_sentiment replica
        let sentiment_suffix :=
          if stm = .positive then " Рад, что вы в хорошем настроении! 😊"
          else if stm = .negative then " Кажется, вы не в духе. Давайте подберем авто! 😊"
          else ""
        if intent = "car_price" ∨ intent = "car_availability" ∨ intent = "car_info" ∨
           intent = "book_test_drive" then
          if ¬ pyTruthyS car_name then
            if pyTruthyS (find_car_by_context env cfg replica ctx) then
              .ok (some ("Из " ++ pyOrS car_category "авто" ++ " есть " ++
                  (find_car_by_context env cfg replica ctx).getD "" ++
                  ". Хотите узнать цену, характеристики или записаться на тест?" ++ sentiment_suffix),
                { ctx with current_car := find_car_by_context env cfg replica ctx,
                           state := "WAITING_FOR_INTENT" })
            else
              .ok (some ("Какую машину или категорию вы имеете в виду?" ++ sentiment_suffix),
                { ctx with state := "WAITING_FOR_CAR" })
          else
            match get_car_response env cfg intent car_name replica with
            | .error e => .error e
            | .ok a => .ok (some a, ctx)
        else if intent = "filter_cars" ∧ ¬ (pyTruthyN price || pyTruthyS car_category) then
          .ok (some ("Укажите цену или категорию для фильтрации." ++ sentiment_suffix), ctx)
        else
          match intent_branch env cfg intent answer0 car_category price car_name
              last_intent sentiment_suffix ctx with
          | .error e => .error e
          | .ok r =>
            if (intent = "hello" ∨ intent = "car_types") ∧ env.coin02 then
              match pyChoice env ((carKeys cfg).filter (fun c => some c ≠ car_name)) with
              | .error e => .error e
              | .ok ad =>
                .ok (some (r.1 ++ " Кстати, у нас есть " ++ ad ++ " — отличный выбор!" ++
                    sentiment_suffix), { r.2 with last_intent := some intent })
            else
              .ok (some r.1, { r.2 with last_intent := some intent })

/-- Tail of numpy's `argmax`: first index of the maximum. -/
def argmaxAux : List ℚ → Nat → ℚ → Nat → Nat
  | [], _, _, besti => besti
  | x :: rest, i, best, besti =>
    if x > best then argmaxAux rest (i + 1) x i else argmaxAux rest (i + 1) best besti

/-- numpy `argmax`: index of the first maximal element (0 on the empty
list, where numpy instead raises — callers guard that case). -/
def argmaxIdx : List ℚ → Nat
  | [] => 0
  | x :: rest => argmaxAux rest 1 x 0

/-- `Bot.generate_answer` (bot.py:263-288), the retrieval fallback. -/
def generate_answer (env : Env) (cfg : Config) (replica : String) (ctx : Ctx) :
    Except PyErr (Option String × Ctx) :=
  let rl := env.lemmatize replica
  if rl = "" ∨ cfg.answers.isEmpty then .ok (none, ctx)
  else if ¬ is_meaningful_text replica then .ok (none, ctx)
  else
    let sims := env.sims replica
    if sims.isEmpty then .error .valueError
    else
      let best_idx := argmaxIdx sims
      if sims.getD best_idx 0 > cfg.dialogues_similarity then
        if best_idx < cfg.answers.length then
          let answer := cfg.answers.getD best_idx ""
          let stm := env.analyze_sentiment replica
          let answer :=
            if stm = .positive then answer ++ " Рад, что ты в хорошем настроении! 😊"
            else if stm = .negative then
              answer ++ " Кажется, ты не в духе. Может, новый авто поднимет настроение? 😊"
            else answer
          if env.coin03 then
            match pyChoice env (carKeys cfg) with
            | .error e => .error e
            | .ok ad =>
              .ok (some (answer ++ " Кстати, у нас есть " ++ ad ++ " — отличный выбор!"),
                { ctx with last_intent := some "offtopic" })
          else
            .ok (some answer, { ctx with last_intent := some "offtopic" })
        else .error .indexError
      else .ok (none, ctx)

/-- `Bot.get_failure_phrase` (bot.py:290-299). -/
def get_failure_phrase (env : Env) (cfg : Config) (replica : String) : Except PyErr String :=
  match pyChoice env (carKeys cfg) with
  | .error e => .error e
  | .ok car_name =>
    match pyChoice env cfg.failure_phrases with
    | .error e => .error e
    | .ok phrase =>
      let answer := pyReplace phrase "[car_name]" car_name
      let stm := env.analyze_sentiment replica
      let answer :=
        if stm = .positive then answer ++ " Ты в отличном настроении, давай найдем машину! 😊"
        else if stm = .negative then answer ++ " Не переживай, подберем авто для тебя! 😊"
        else answer
      .ok answer

/-- `Bot._process_none_state` (bot.py:301-329). -/
def process_none_state (env : Env) (cfg : Config) (replica : String) (ctx : Ctx) :
    Except PyErr (Option String × Ctx) :=
  match extract_car_name cfg replica with
  | some car_name =>
    let stm := env.analyze_sentiment replica
    let sfx :=
      if stm = .positive then " Рад, что ты в хорошем настроении! 😊"
      else if stm = .negative then " Кажется, ты не в духе. Давай найдем авто? 😊"
      else ""
    .ok (some ("Вы имеете в виду " ++ car_name ++
        "? Хотите узнать цену, характеристики или тест-драйв?" ++ sfx),
      { ctx with current_car := some car_name, state := "WAITING_FOR_INTENT" })
  | none =>
    match extract_car_category cfg replica with
    | some cat =>
      let suit := carsInCategory cfg cat
      if suit.isEmpty then
        let stm := env.analyze_sentiment replica
        let sfx :=
          if stm = .positive then " В хорошем настроении? Давай попробуем другую категорию! 😊"
          else if stm = .negative then " Не переживай, попробуем другую категорию! 😊"
          else ""
        .ok (some ("У нас нет машин в категории " ++ cat ++
          ". Попробуйте другую категорию!" ++ sfx), ctx)
      else
        let car_name := env.pick suit
        let stm := env.analyze_sentiment replica
        let sfx :=
          if stm = .positive then " Ты в отличном настроении, давай продолжим! 😊"
          else if stm = .negative then " Не грусти, найдем машину! 😊"
          else ""
        .ok (some ("Из " ++ cat ++ " есть " ++ car_name ++
            ". Хотите узнать цену, характеристики или тест-драйв?" ++ sfx),
          { ctx with current_car := some car_name, state := "WAITING_FOR_INTENT" })
    | none =>
      let intent := classify_intent env cfg replica
      if pyTruthyS intent then
        get_answer_by_intent env cfg (intent.getD "") replica ctx
      else
        match generate_answer env cfg replica ctx with
        | .error e => .error e
        | .ok g =>
          if pyTruthyS g.1 then
            .ok (some (g.1.getD ""), g.2)
          else
            match get_failure_phrase env cfg replica with
            | .error e => .error e
            | .ok f => .ok (some f, g.2)

/-- `Bot._process_waiting_for_car` (bot.py:331-352). -/
def process_waiting_for_car (env : Env) (cfg : Config) (replica : String) (ctx : Ctx) :
    String × Ctx :=
  match extract_car_name cfg replica with
  | some car_name =>
    let stm := env.analyze_sentiment replica
    let sfx :=
      if stm = .positive then " Отличное настроение, да? 😊"
      else if stm = .negative then " Давай найдем что-то подходящее! 😊"
      else ""
    ("Вы имеете в виду " ++ car_name ++ "? Хотите узнать цену, характеристики или тест-драйв?" ++ sfx,
      { ctx with current_car := some car_name, state := "WAITING_FOR_INTENT" })
  | none =>
    let noMatch : String × Ctx :=
      let stm := env.analyze_sentiment replica
      let sfx :=
        if stm = .positive then " Отлично, давай продолжим! 😊"
        else if stm = .negative then " Не переживай, уточним! 😊"
        else ""
      ("Пожалуйста, уточните название машины или категорию." ++ sfx, ctx)
    match extract_car_category cfg replica with
    | some cat =>
      let suit := carsInCategory cfg cat
      if suit.isEmpty then noMatch
      else
        let car_name := env.pick suit
        let stm := env.analyze_sentiment replica
        let sfx :=
          if stm = .positive then " В хорошем расположении духа? 😊"
          else if stm = .negative then " Не грусти, найдем авто! 😊"
          else ""
        ("Из " ++ cat ++ " есть " ++ car_name ++
           ". Хотите узнать цену, характеристики или тест-драйв?" ++ sfx,
          { ctx with current_car := some car_name, state := "WAITING_FOR_INTENT" })
    | none => noMatch

/-- `Bot._process_waiting_for_intent` (bot.py:354-388).  In the source, the
affirmative branch (bot.py:367-379) reads the local names `last_intent` and
`sentiment_suffix`, which are defined in no enclosing scope of this method:
reaching it raises `NameError`.  (The `'машину'` default of
`get('current_car', 'машину')` applies only when the key is absent, which
cannot happen in this state: every prior turn ends in `_update_context`,
whose `setdefault` creates the key; the initialized-`Ctx` model reflects
that.) -/
def process_waiting_for_intent (env : Env) (cfg : Config) (replica : String) (ctx : Ctx) :
    Except PyErr (String × Ctx) :=
  let extracted := extract_car_name cfg replica
  let resolved : Option String × Ctx :=
    if pyTruthyS extracted && (cfg.cars.lookup (extracted.getD "")).isSome then
      (extracted, { ctx with current_car := extracted })
    else
      (ctx.current_car, ctx)
  let car_name := resolved.1
  let ctx1 := resolved.2
  let intent := classify_intent env cfg replica
  if intent = some "car_price" ∨ intent = some "car_availability" ∨
     intent = some "car_info" ∨ intent = some "book_test_drive" then
    match get_car_response env cfg (intent.getD "") car_name replica with
    | .error e => .error e
    | .ok a => .ok (a, { ctx1 with state := "NONE" })
  else if intent = some "yes" then
    .error .nameError
  else if intent = some "no" then
    let stm := env.analyze_sentiment replica
    let sfx :=
      if stm = .positive then " Отлично, продолжаем! 😊"
      else if stm = .negative then " Не грусти, найдем другое! 😊"
      else ""
    .ok ("Хорошо, какую машину обсудим теперь?" ++ sfx,
      { ctx1 with current_car := none, state := "NONE" })
  else
    let stm := env.analyze_sentiment replica
    let sfx :=
      if stm = .positive then " В хорошем настроении? 😊"
      else if stm = .negative then " Не переживай, найдем что-то подходящее! 😊"
      else ""
    .ok ("Что хотите узнать про " ++ pyStrOpt car_name ++
      ": цену, характеристики или тест-драйв?" ++ sfx, ctx1)

/-- The per-state dispatch of `Bot.process` (bot.py:411-416). -/
def dispatchState (env : Env) (cfg : Config) (replica : String) (ctx : Ctx) :
    Except PyErr (Option String × Ctx) :=
  if ctx.state = "WAITING_FOR_CAR" then
    let r := process_waiting_for_car env cfg replica ctx
    .ok (some r.1, r.2)
  else if ctx.state = "WAITING_FOR_INTENT" then
    match process_waiting_for_intent env cfg replica ctx with
    | .error e => .error e
    | .ok r => .ok (some r.1, r.2)
  else
    process_none_state env cfg replica ctx

/-- The resolution tag computed at bot.py:419-420: `INTENT` when a second
run of `classify_intent` is truthy, else `GENERATE` when the reply contains
the literal substring `dialogues.txt`, else `FAILURE`; `answer` being `None`
there raises `TypeError`. -/
def statsTag (env : Env) (cfg : Config) (replica : String) (answer : Option String) :
    Except PyErr String :=
  if pyTruthyS (classify_intent env cfg replica) then .ok "intent"
  else
    match answer with
    | none => .error .typeError
    | some a => .ok (if pyContains a "dialogues.txt" then "generate" else "failure")

/-- `Bot.process` (bot.py:390-422), the per-turn entry point. -/
def process (env : Env) (cfg : Config) (replica : String) (ctx : Ctx) :
    Except PyErr (Option String × Ctx) :=
  if ¬ is_meaningful_text replica then
    match get_failure_phrase env cfg replica with
    | .error e => .error e
    | .ok a =>
      let c1 := update_context cfg ctx replica (some a) none
      .ok (some a, { c1 with stats := statsAdd c1.stats "failure" })
  else
    let price := extract_price replica
    let car_category := extract_car_category cfg replica
    if pyTruthyN price then
      let r := handle_filter_cars env cfg price car_category ctx
      let c1 := update_context cfg r.2 replica (some r.1) (some "filter_cars")
      .ok (some r.1, { c1 with stats := statsAdd c1.stats "intent" })
    else
      match dispatchState env cfg replica ctx with
      | .error e => .error e
      | .ok d =>
        let c1 := update_context cfg d.2 replica d.1 none
        match statsTag env cfg replica d.1 with
        | .error e => .error e
        | .ok tag => .ok (d.1, { c1 with stats := statsAdd c1.stats tag })

/-! ## Shared lemmas -/

theorem pySliceLast_length_le (l : List String) (n : Nat) (h : 0 < n) :
    (pySliceLast l n).length ≤ n := by
  unfold pySliceLast
  rw [if_neg (Nat.pos_iff_ne_zero.mp h)]
  rw [List.length_drop]
  omega

theorem lookup_isSome_of_mem_keys {β : Type} {l : List (String × β)} {c : String}
    (h : c ∈ l.map Prod.fst) : (l.lookup c).isSome = true := by
  induction l with
  | nil => simp at h
  | cons p t ih =>
    simp only [List.map_cons, List.mem_cons] at h
    cases hpc : c == p.1 with
    | true => simp [List.lookup, hpc]
    | false =>
      simp only [List.lookup, hpc]
      rcases h with h | h
      · simp [h] at hpc
      · exact ih h

/-- Validity of the session's current vehicle: if set, it is a key of the
catalog (the `current_vehicle` invariant of spec §3). -/
def CarOk (cfg : Config) (o : Option String) : Prop :=
  ∀ s, o = some s → (cfg.cars.lookup s).isSome = true

theorem carOk_none {cfg : Config} : CarOk cfg none := fun s h => by cases h

theorem carOk_some {cfg : Config} {c : String} (h : (cfg.cars.lookup c).isSome = true) :
    CarOk cfg (some c) := fun s hs => by cases hs; exact h

theorem carOk_of_mem_keys {cfg : Config} {c : String} (h : c ∈ carKeys cfg) :
    CarOk cfg (some c) :=
  carOk_some (lookup_isSome_of_mem_keys h)

/-- The random source returns elements of the choice set (what `random.choice`
guarantees); every theorem about a random-dependent path assumes it. -/
def PickMem (env : Env) : Prop := ∀ l : List String, l ≠ [] → env.pick l ∈ l

theorem ne_nil_of_not_isEmpty {α : Type} {l : List α} (h : ¬ l.isEmpty = true) : l ≠ [] := by
  cases l <;> simp_all

theorem extract_car_name_mem {cfg : Config} {t c : String}
    (h : extract_car_name cfg t = some c) : c ∈ carKeys cfg :=
  List.mem_of_find?_eq_some h

theorem carsInCategory_subset {cfg : Config} {cat c : String}
    (h : c ∈ carsInCategory cfg cat) : c ∈ carKeys cfg := by
  unfold carsInCategory at h
  rcases List.mem_map.mp h with ⟨p, hp, rfl⟩
  exact List.mem_map_of_mem _ (List.mem_of_mem_filter hp)

theorem filteredCars_subset {cfg : Config} {price : Option Nat} {cat : Option String}
    {hist : List String} {c : String} (h : c ∈ filteredCars cfg price cat hist) :
    c ∈ carKeys cfg := by
  unfold filteredCars at h
  have h1 := List.mem_of_mem_filter h
  rcases List.mem_map.mp h1 with ⟨p, hp, rfl⟩
  exact List.mem_map_of_mem _ (List.mem_of_mem_filter hp)

theorem handle_filter_cars_frame (env : Env) (cfg : Config) (price : Option Nat)
    (cat : Option String) (ctx : Ctx) :
    (handle_filter_cars env cfg price cat ctx).2.history = ctx.history ∧
    (handle_filter_cars env cfg price cat ctx).2.stats = ctx.stats ∧
    (handle_filter_cars env cfg price cat ctx).2.last_intent = ctx.last_intent := by
  unfold handle_filter_cars
  dsimp only
  repeat' split
  all_goals exact ⟨rfl, rfl, rfl⟩

theorem handle_filter_cars_carOk {env : Env} {cfg : Config} {price : Option Nat}
    {cat : Option String} {ctx : Ctx} (hp : PickMem env) (hc : CarOk cfg ctx.current_car) :
    CarOk cfg (handle_filter_cars env cfg price cat ctx).2.current_car := by
  unfold handle_filter_cars
  dsimp only
  split
  · exact hc
  · split
    · rename_i hne hrec
      exact carOk_of_mem_keys (filteredCars_subset (hp _ (ne_nil_of_not_isEmpty hne)))
    · exact hc

theorem generate_answer_ctx {env : Env} {cfg : Config} {replica : String} {ctx : Ctx}
    {g : Option String} {c' : Ctx}
    (hok : generate_answer env cfg replica ctx = .ok (g, c')) :
    c' = ctx ∨ c' = { ctx with last_intent := some "offtopic" } := by
  unfold generate_answer at hok
  dsimp only at hok
  repeat' split at hok
  all_goals first
    | (cases hok; exact Or.inl rfl)
    | (cases hok; exact Or.inr rfl)
    | (exact absurd hok (by simp))

theorem scanHist_mem_keys {env : Env} {cfg : Config} (hp : PickMem env) :
    ∀ {l : List String} {c : String}, scanHist env cfg l = some c → c ∈ carKeys cfg := by
  intro l
  induction l with
  | nil => intro c h; simp [scanHist] at h
  | cons x t ih =>
    intro c hok
    unfold scanHist at hok
    split at hok
    · cases hok; exact extract_car_name_mem ‹_›
    · split at hok
      · split at hok
        · exact ih hok
        · rename_i hne
          cases hok
          exact carsInCategory_subset (hp _ (ne_nil_of_not_isEmpty hne))
      · exact ih hok

theorem find_car_by_context_mem_keys {env : Env} {cfg : Config} {replica : String}
    {ctx : Ctx} {c : String} (hp : PickMem env)
    (h : find_car_by_context env cfg replica ctx = some c) : c ∈ carKeys cfg := by
  unfold find_car_by_context at h
  dsimp only at h
  split at h
  · exact extract_car_name_mem h
  · split at h
    · split at h
      · cases h
      · rename_i hne
        cases h
        exact carsInCategory_subset (hp _ (ne_nil_of_not_isEmpty hne))
    · split at h
      · exact scanHist_mem_keys hp h
      · cases h

theorem pyChoice_ok_mem {env : Env} (hp : PickMem env) {l : List String} {x : String}
    (h : pyChoice env l = .ok x) : x ∈ l := by
  unfold pyChoice at h
  split at h
  · cases h
  · rename_i hne
    cases h
    exact hp _ (ne_nil_of_not_isEmpty hne)

theorem generate_answer_ctx' {env : Env} {cfg : Config} {replica : String} {ctx : Ctx}
    {g : Option String × Ctx}
    (hok : generate_answer env cfg replica ctx = .ok g) :
    g.2 = ctx ∨ g.2 = { ctx with last_intent := some "offtopic" } := by
  rcases g with ⟨g1, g2⟩
  exact generate_answer_ctx hok

theorem generate_answer_frame {env : Env} {cfg : Config} {replica : String} {ctx : Ctx}
    {g : Option String × Ctx}
    (hok : generate_answer env cfg replica ctx = .ok g) :
    g.2.history = ctx.history ∧ g.2.stats = ctx.stats ∧
    g.2.current_car = ctx.current_car ∧ g.2.state = ctx.state := by
  rcases generate_answer_ctx' hok with h | h <;> rw [h] <;> exact ⟨rfl, rfl, rfl, rfl⟩

theorem intent_branch_frame {env : Env} {cfg : Config} {intent answer0 : String}
    {car_category : Option String} {price : Option Nat} {car_name last_intent : Option String}
    {sfx : String} {ctx : Ctx} {r : String × Ctx}
    (hok : intent_branch env cfg intent answer0 car_category price car_name
      last_intent sfx ctx = .ok r) :
    r.2.history = ctx.history ∧ r.2.stats = ctx.stats := by
  unfold intent_branch at hok
  repeat' split at hok
  all_goals try cases hok
  all_goals first
    | (exact ⟨rfl, rfl⟩)
    | (exact ⟨(handle_filter_cars_frame _ _ _ _ _).1, (handle_filter_cars_frame _ _ _ _ _).2.1⟩)

theorem intent_branch_carOk {env : Env} {cfg : Config} {intent answer0 : String}
    {car_category : Option String} {price : Option Nat} {car_name last_intent : Option String}
    {sfx : String} {ctx : Ctx} {r : String × Ctx} (hp : PickMem env)
    (hc : CarOk cfg ctx.current_car)
    (hok : intent_branch env cfg intent answer0 car_category price car_name
      last_intent sfx ctx = .ok r) :
    CarOk cfg r.2.current_car := by
  unfold intent_branch at hok
  repeat' split at hok
  all_goals try cases hok
  all_goals first
    | (exact hc)
    | (exact carOk_none)
    | (exact handle_filter_cars_carOk hp hc)
    | (exact carOk_some (lookup_isSome_of_mem_keys (pyChoice_ok_mem hp (by assumption))))

theorem get_answer_by_intent_frame {env : Env} {cfg : Config} {intent replica : String}
    {ctx : Ctx} {d : Option String × Ctx}
    (hok : get_answer_by_intent env cfg intent replica ctx = .ok d) :
    d.2.history = ctx.history ∧ d.2.stats = ctx.stats := by
  unfold get_answer_by_intent at hok
  dsimp only at hok
  repeat' split at hok
  all_goals try cases hok
  all_goals first
    | (exact ⟨rfl, rfl⟩)
    | (have h2 := intent_branch_frame (show intent_branch _ _ _ _ _ _ _ _ _ _ = Except.ok _ by assumption)
       exact ⟨h2.1, h2.2⟩)

theorem get_answer_by_intent_carOk {env : Env} {cfg : Config} {intent replica : String}
    {ctx : Ctx} {d : Option String × Ctx} (hp : PickMem env)
    (hc : CarOk cfg ctx.current_car)
    (hok : get_answer_by_intent env cfg intent replica ctx = .ok d) :
    CarOk cfg d.2.current_car := by
  unfold get_answer_by_intent at hok
  dsimp only at hok
  repeat' split at hok
  all_goals try cases hok
  all_goals first
    | (exact hc)
    | (exact fun s hs => lookup_isSome_of_mem_keys (find_car_by_context_mem_keys hp hs))
    | (exact intent_branch_carOk hp hc (show intent_branch _ _ _ _ _ _ _ _ _ _ = Except.ok _ by assumption))

theorem process_none_state_frame {env : Env} {cfg : Config} {replica : String}
    {ctx : Ctx} {d : Option String × Ctx}
    (hok : process_none_state env cfg replica ctx = .ok d) :
    d.2.history = ctx.history ∧ d.2.stats = ctx.stats := by
  unfold process_none_state at hok
  dsimp only at hok
  repeat' split at hok
  all_goals try (exact get_answer_by_intent_frame hok)
  all_goals try cases hok
  all_goals first
    | (exact ⟨rfl, rfl⟩)
    | (have h2 := generate_answer_frame (show generate_answer _ _ _ _ = Except.ok _ by assumption)
       exact ⟨h2.1, h2.2.1⟩)

theorem process_none_state_carOk {env : Env} {cfg : Config} {replica : String}
    {ctx : Ctx} {d : Option String × Ctx} (hp : PickMem env)
    (hc : CarOk cfg ctx.current_car)
    (hok : process_none_state env cfg replica ctx = .ok d) :
    CarOk cfg d.2.current_car := by
  unfold process_none_state at hok
  dsimp only at hok
  repeat' split at hok
  all_goals try (exact get_answer_by_intent_carOk hp hc hok)
  all_goals try cases hok
  all_goals first
    | (exact hc)
    | (exact carOk_of_mem_keys (extract_car_name_mem (by assumption)))
    | (exact carOk_of_mem_keys (carsInCategory_subset
        (hp _ (ne_nil_of_not_isEmpty (by assumption)))))
    | (have h2 := (generate_answer_frame (show generate_answer _ _ _ _ = Except.ok _ by assumption)).2.2.1
       rw [h2]; exact hc)

theorem process_waiting_for_car_frame (env : Env) (cfg : Config) (replica : String)
    (ctx : Ctx) :
    (process_waiting_for_car env cfg replica ctx).2.history = ctx.history ∧
    (process_waiting_for_car env cfg replica ctx).2.stats = ctx.stats := by
  unfold process_waiting_for_car
  dsimp only
  repeat' split
  all_goals exact ⟨rfl, rfl⟩

theorem process_waiting_for_car_carOk {env : Env} {cfg : Config} {replica : String}
    {ctx : Ctx} (hp : PickMem env) (hc : CarOk cfg ctx.current_car) :
    CarOk cfg (process_waiting_for_car env cfg replica ctx).2.current_car := by
  unfold process_waiting_for_car
  dsimp only
  repeat' split
  all_goals first
    | exact hc
    | (exact carOk_of_mem_keys (extract_car_name_mem (by assumption)))
    | (exact carOk_of_mem_keys (carsInCategory_subset
        (hp _ (ne_nil_of_not_isEmpty (by assumption)))))

theorem process_waiting_for_intent_frame {env : Env} {cfg : Config} {replica : String}
    {ctx : Ctx} {r : String × Ctx}
    (hok : process_waiting_for_intent env cfg replica ctx = .ok r) :
    r.2.history = ctx.history ∧ r.2.stats = ctx.stats := by
  unfold process_waiting_for_intent at hok
  dsimp only at hok
  repeat' split at hok
  all_goals try cases hok
  all_goals exact ⟨rfl, rfl⟩

theorem process_waiting_for_intent_carOk {env : Env} {cfg : Config} {replica : String}
    {ctx : Ctx} {r : String × Ctx} (_hp : PickMem env)
    (hc : CarOk cfg ctx.current_car)
    (hok : process_waiting_for_intent env cfg replica ctx = .ok r) :
    CarOk cfg r.2.current_car := by
  unfold process_waiting_for_intent at hok
  dsimp only at hok
  repeat' split at hok
  all_goals try cases hok
  all_goals dsimp only
  all_goals first
    | (exact hc)
    | (exact carOk_none)
    | (exact fun s hs => lookup_isSome_of_mem_keys (extract_car_name_mem hs))

theorem dispatchState_frame {env : Env} {cfg : Config} {replica : String}
    {ctx : Ctx} {d : Option String × Ctx}
    (hok : dispatchState env cfg replica ctx = .ok d) :
    d.2.history = ctx.history ∧ d.2.stats = ctx.stats := by
  unfold dispatchState at hok
  repeat' split at hok
  all_goals try (exact process_none_state_frame hok)
  all_goals try cases hok
  all_goals first
    | (exact ⟨(process_waiting_for_car_frame env cfg replica ctx).1,
              (process_waiting_for_car_frame env cfg replica ctx).2⟩)
    | (have h2 := process_waiting_for_intent_frame
         (show process_waiting_for_intent _ _ _ _ = Except.ok _ by assumption)
       exact ⟨h2.1, h2.2⟩)

theorem dispatchState_carOk {env : Env} {cfg : Config} {replica : String}
    {ctx : Ctx} {d : Option String × Ctx} (hp : PickMem env)
    (hc : CarOk cfg ctx.current_car)
    (hok : dispatchState env cfg replica ctx = .ok d) :
    CarOk cfg d.2.current_car := by
  unfold dispatchState at hok
  repeat' split at hok
  all_goals try (exact process_none_state_carOk hp hc hok)
  all_goals try cases hok
  all_goals first
    | (exact process_waiting_for_car_carOk hp hc)
    | (exact process_waiting_for_intent_carOk hp hc
        (show process_waiting_for_intent _ _ _ _ = Except.ok _ by assumption))

theorem statsAdd_intent (s : StatsD) :
    statsAdd s "intent" = ⟨s.intent + 1, s.generate, s.failure⟩ := rfl

theorem statsAdd_failure (s : StatsD) :
    statsAdd s "failure" = ⟨s.intent, s.generate, s.failure + 1⟩ := rfl

theorem get_failure_phrase_ok (env : Env) (cfg : Config) (replica : String)
    (hcars : cfg.cars ≠ []) (hfail : cfg.failure_phrases ≠ []) :
    ∃ a, get_failure_phrase env cfg replica = .ok a := by
  have h1 : (carKeys cfg).isEmpty = false := by
    unfold carKeys
    cases h : cfg.cars
    · exact absurd h hcars
    · simp
  have h2 : cfg.failure_phrases.isEmpty = false := by
    cases h : cfg.failure_phrases
    · exact absurd h hfail
    · simp
  unfold get_failure_phrase pyChoice
  rw [h1, h2]
  exact ⟨_, rfl⟩

/-- Every successful `process` turn rewrites `history` to the slice of the
old history with the utterance appended (`_update_context`, bot.py:79-80). -/
theorem process_history {env : Env} {cfg : Config} {replica : String} {ctx : Ctx}
    {aOpt : Option String} {c2 : Ctx}
    (hok : process env cfg replica ctx = .ok (aOpt, c2)) :
    c2.history = pySliceLast (ctx.history ++ [replica]) cfg.history_limit := by
  unfold process at hok
  dsimp only at hok
  repeat' split at hok
  all_goals try cases hok
  all_goals dsimp only [update_context]
  all_goals first
    | (exact rfl)
    | (rw [(handle_filter_cars_frame env cfg (extract_price replica)
        (extract_car_category cfg replica) ctx).1])
    | (rw [(dispatchState_frame (show dispatchState _ _ _ _ = Except.ok _ by assumption)).1])

theorem argmaxAux_lt : ∀ (l : List ℚ) (i : Nat) (best : ℚ) (besti : Nat),
    besti < i → argmaxAux l i best besti < i + l.length := by
  intro l
  induction l with
  | nil =>
    intro i best besti h
    simp only [argmaxAux, List.length_nil, Nat.add_zero]
    exact h
  | cons x rest ih =>
    intro i best besti h
    unfold argmaxAux
    split
    · have h2 := ih (i + 1) x i (Nat.lt_succ_self i)
      simpa [List.length_cons] using h2.trans_le (by omega)
    · have h2 := ih (i + 1) best besti (h.trans (Nat.lt_succ_self i))
      simpa [List.length_cons] using h2.trans_le (by omega)

theorem argmaxIdx_lt {l : List ℚ} (h : l ≠ []) : argmaxIdx l < l.length := by
  cases l with
  | nil => exact absurd rfl h
  | cons x rest =>
    have h2 := argmaxAux_lt rest 1 x 0 Nat.one_pos
    simpa [argmaxIdx, List.length_cons, Nat.add_comm] using h2

theorem bestFold_none_eq_zero (env : Env) (cfg : Config) (rl : String) :
    ∀ (l : List (String × IntentData)) (acc : ℚ × Option String),
      (acc.2 = none → acc.1 = 0) →
      ((l.foldl (bestStep env cfg rl) acc).2 = none → (l.foldl (bestStep env cfg rl) acc).1 = 0) := by
  intro l
  induction l with
  | nil => intro acc h; exact h
  | cons p t ih =>
    intro acc h
    simp only [List.foldl_cons]
    apply ih
    unfold bestStep
    dsimp only
    split
    · exact h
    · split
      · intro hnone; cases hnone
      · exact h

theorem bestFold_mem (env : Env) (cfg : Config) (rl : String) {k : String} :
    ∀ (l : List (String × IntentData)) (acc : ℚ × Option String),
      (l.foldl (bestStep env cfg rl) acc).2 = some k →
      acc.2 = some k ∨ k ∈ l.map Prod.fst := by
  intro l
  induction l with
  | nil => intro acc h; exact Or.inl h
  | cons p t ih =>
    intro acc h
    simp only [List.foldl_cons] at h
    rcases ih _ h with h2 | h2
    · unfold bestStep at h2
      dsimp only at h2
      split at h2
      · exact Or.inl h2
      · split at h2
        · cases h2; exact Or.inr (by simp)
        · exact Or.inl h2
    · exact Or.inr (List.mem_cons_of_mem _ h2)

/-! ## Concrete instances for witnesses and counterexamples -/

/-- A deterministic oracle environment: identity lemmatizer, neutral
sentiment, a fuzzy score of 100 exactly on literal example matches, one
retrieval row of similarity 1, and a head-picking random source. -/
def envA : Env where
  lemmatize := fun s => s
  analyze_sentiment := fun _ => Sentiment.neutral
  clfPredict := fun _ => "hello"
  clfConfidence := fun _ => 1
  extractOneScore := fun rl exs => if exs.contains rl then 100 else 0
  sims := fun _ => [1]
  pick := fun l => l.headD ""
  sample := fun l n => l.take n
  coin02 := false
  coin03 := false

/-- A small concrete catalog and intent configuration: vehicles `A`
(1000000, sedan) and `B` (2000000, suv), the claim C3 scenario's catalog. -/
def cfgMain : Config where
  cars := [("A", ⟨1000000, "седан", ["sedan"]⟩), ("B", ⟨2000000, "кроссовер", ["suv"]⟩)]
  intents :=
    [("hello", ⟨["привет"], ["Привет!"]⟩),
     ("yes", ⟨["да"], ["Ок!"]⟩),
     ("no", ⟨["нет"], ["Ок."]⟩),
     ("car_price", ⟨["цена"], ["Цена [car_name] — [price] рублей."]⟩),
     ("filter_cars", ⟨["фильтр"], ["Фильтрую."]⟩)]
  failure_phrases := ["Не понял. Посмотрите [car_name]!"]
  intent_score := mkRat 2 5
  dialogues_similarity := mkRat 1 2
  history_limit := 5
  answers := ["Хорошо!"]

/-- A fresh (empty) session context. -/
def ctxFresh : Ctx := ⟨"NONE", none, none, none, [], ⟨0, 0, 0⟩⟩

/-- A session waiting for an intent about vehicle `A`. -/
def ctxWFI : Ctx := ⟨"WAITING_FOR_INTENT", some "A", some "ответ", none, [], ⟨0, 0, 0⟩⟩

theorem pickMem_envA : PickMem envA := by
  intro l hl
  cases l with
  | nil => exact absurd rfl hl
  | cons a t => simp [envA]

theorem eq_nil_of_isEmpty {α : Type} {l : List α} (h : l.isEmpty = true) : l = [] := by
  cases l <;> simp_all

theorem isEmpty_eq_false_of_ne_nil {α : Type} {l : List α} (h : l ≠ []) :
    l.isEmpty = false := by
  cases hl : l
  · exact absurd hl h
  · simp

/-! ## Claim theorems -/

/-- Claim C1 (code bug): the spec asserts that `process` never raises on
well-formed input, in particular when the state is WAITING_FOR_INTENT and the
classified intent is affirmative.  In the source, exactly that branch of
`_process_waiting_for_intent` reads the locals `last_intent` and
`sentiment_suffix`, which no enclosing scope defines (bot.py:368-372), so the
turn raises `NameError`.  Evaluated here: in state WAITING_FOR_INTENT the
meaningful, price-free utterance "да" classifies as "yes" and `process`
raises instead of returning a reply. -/
theorem process_yes_in_waiting_for_intent_raises :
    process envA cfgMain "да" ctxWFI = .error .nameError := by decide

/-- Claim C2 counterexample: at the input "блабла" the best example score is
0, strictly below the threshold, and the (spec-modelled) confidence of the
statistical prediction clears the threshold, yet `classify_intent` returns
none rather than the model's point prediction "hello": below the threshold
the prediction is never consulted (bot.py:104 parses as
`(best_intent or intent) if best_score >= threshold else None`). -/
theorem classify_below_threshold_ignores_prediction :
    (bestPair envA cfgMain (envA.lemmatize "блабла")).1 < cfgMain.intent_score ∧
    envA.clfConfidence (envA.lemmatize "блабла") ≥ cfgMain.intent_score ∧
    classify_intent envA cfgMain "блабла" = none ∧
    some (envA.clfPredict (envA.lemmatize "блабла")) ≠ none :=
  ⟨by decide, by decide, by decide, by decide⟩

/-- Claim C2 (amended): for a positive threshold, non-empty intent keys and a
non-empty lemmatization, `classify_intent` returns the best example-matched
intent whenever the loop's best score reaches the threshold, and returns none
whenever it does not — the statistical model's prediction and its confidence
are never consulted below the threshold. -/
theorem classify_intent_threshold_spec (env : Env) (cfg : Config) (replica : String)
    (hthr : 0 < cfg.intent_score)
    (hkeys : ∀ p ∈ cfg.intents, p.1 ≠ "")
    (hlem : env.lemmatize replica ≠ "") :
    ((bestPair env cfg (env.lemmatize replica)).1 ≥ cfg.intent_score →
      ∃ k, (bestPair env cfg (env.lemmatize replica)).2 = some k ∧
        classify_intent env cfg replica = some k) ∧
    ((bestPair env cfg (env.lemmatize replica)).1 < cfg.intent_score →
      classify_intent env cfg replica = none) := by
  constructor
  · intro hge
    have h2 : (bestPair env cfg (env.lemmatize replica)).2 ≠ none := by
      intro hnone
      have h0 : (bestPair env cfg (env.lemmatize replica)).1 = 0 :=
        bestFold_none_eq_zero env cfg (env.lemmatize replica) cfg.intents (0, none)
          (fun _ => rfl) hnone
      rw [h0] at hge
      exact absurd hthr (not_lt.mpr hge)
    obtain ⟨k, hk⟩ := Option.ne_none_iff_exists'.mp h2
    have hkne : k ≠ "" := by
      rcases bestFold_mem env cfg (env.lemmatize replica) cfg.intents (0, none) hk with h | h
      · cases h
      · rcases List.mem_map.mp h with ⟨p, hp, rfl⟩
        exact hkeys p hp
    refine ⟨k, hk, ?_⟩
    unfold classify_intent
    dsimp only
    rw [if_neg hlem, if_pos hge, hk]
    simp only [pyOrS]
    rw [if_neg hkne]
  · intro hlt
    unfold classify_intent
    dsimp only
    rw [if_neg hlem, if_neg (not_le.mpr hlt)]

theorem classify_intent_threshold_spec_witness :
    (0 < cfgMain.intent_score ∧ (∀ p ∈ cfgMain.intents, p.1 ≠ "") ∧
      envA.lemmatize "да" ≠ "") ∧
    (((bestPair envA cfgMain (envA.lemmatize "да")).1 ≥ cfgMain.intent_score →
        ∃ k, (bestPair envA cfgMain (envA.lemmatize "да")).2 = some k ∧
          classify_intent envA cfgMain "да" = some k) ∧
      ((bestPair envA cfgMain (envA.lemmatize "да")).1 < cfgMain.intent_score →
        classify_intent envA cfgMain "да" = none)) :=
  ⟨⟨by decide, by decide, by decide⟩,
    classify_intent_threshold_spec envA cfgMain "да" (by decide) (by decide) (by decide)⟩

/-- Claim C3 counterexample: on the fresh session and the two-vehicle catalog
of the scenario, processing "машины до 1500000" returns the filter reply
naming exactly A, but the session state stays NONE (not WAITING_FOR_INTENT)
and `current_car` stays none (not A): with an explicit price filter,
`_handle_filter_cars` takes the listing branch (bot.py:173) and the
recommend-and-transition branch (bot.py:168-172) is unreachable. -/
theorem price_filter_scenario_no_transition :
    process envA cfgMain "машины до 1500000" ctxFresh =
      .ok (some "Вот что нашлось: A.",
        ⟨"NONE", none, some "Вот что нашлось: A.", some "filter_cars",
          ["машины до 1500000"], ⟨1, 0, 0⟩⟩) ∧
    ¬ (("NONE" : String) = "WAITING_FOR_INTENT" ∨ (none : Option String) = some "A") :=
  ⟨by decide, by decide⟩

/-- Claim C3 (amended): in the scenario the surviving filter set is exactly
[A], the reply lists exactly that set, the turn is recorded as a filter
intent, and the session state remains NONE with `current_car` unset — the
recommend-and-transition branch applies only when no explicit price or
category filter was given. -/
theorem price_filter_scenario_reply_names_exactly_A :
    filteredCars cfgMain (some 1500000) none ctxFresh.history = ["A"] ∧
    process envA cfgMain "машины до 1500000" ctxFresh =
      .ok (some ("Вот что нашлось: " ++
          joinWith ", " (filteredCars cfgMain (some 1500000) none ctxFresh.history) ++ "."),
        ⟨"NONE", none, some "Вот что нашлось: A.", some "filter_cars",
          ["машины до 1500000"], ⟨1, 0, 0⟩⟩) ∧
    ("NONE" : String) = "NONE" ∧ (none : Option String) = none :=
  ⟨by decide, by decide, rfl, rfl⟩

/-- Claim C4 (code bug): a turn answered by the retrieval fallback must
increment the retrieved counter, but the tag computed at bot.py:419-420
checks for the literal substring `dialogues.txt` in the reply — that string
only ever occurs in a log line, not in stored answers — so the retrieval
turn is tallied as FAILURE.  Evaluated here: "как дела" is answered by the
stored corpus answer "Хорошо!" (and `last_intent` becomes "offtopic"), yet
the failure counter is incremented and the generate counter stays 0. -/
theorem retrieval_turn_counted_as_failure :
    process envA cfgMain "как дела" ctxFresh =
      .ok (some "Хорошо!",
        ⟨"NONE", none, some "Хорошо!", some "offtopic", ["как дела"], ⟨0, 0, 1⟩⟩) ∧
    cfgMain.answers.getD 0 "" = "Хорошо!" ∧
    pyContains "Хорошо!" "dialogues.txt" = false :=
  ⟨by decide, by decide, by decide⟩

/-- The shape of `process` on the price path (bot.py:399-405). -/
theorem process_price_eq (env : Env) (cfg : Config) (replica : String) (ctx : Ctx)
    (hm : is_meaningful_text replica = true)
    (hpr : pyTruthyN (extract_price replica) = true) :
    process env cfg replica ctx =
      .ok (some (handle_filter_cars env cfg (extract_price replica)
          (extract_car_category cfg replica) ctx).1,
        { update_context cfg (handle_filter_cars env cfg (extract_price replica)
              (extract_car_category cfg replica) ctx).2 replica
            (some (handle_filter_cars env cfg (extract_price replica)
              (extract_car_category cfg replica) ctx).1) (some "filter_cars") with
          stats := statsAdd (update_context cfg (handle_filter_cars env cfg (extract_price replica)
              (extract_car_category cfg replica) ctx).2 replica
            (some (handle_filter_cars env cfg (extract_price replica)
              (extract_car_category cfg replica) ctx).1) (some "filter_cars")).stats
            "intent" }) := by
  unfold process
  dsimp only
  rw [if_neg (show ¬¬ is_meaningful_text replica = true by simp [hm]), if_pos hpr]

/-- Claim C5: a meaningful utterance from which a (truthy) price is extracted
is answered by the vehicle-filter algorithm for every prior session state,
the intent counter is incremented (outcome INTENT), the other counters are
untouched, and `last_intent` is set to the filter intent — the per-state
dispatch never runs. -/
theorem process_price_preempts_dispatch (env : Env) (cfg : Config) (replica : String)
    (ctx : Ctx) (hm : is_meaningful_text replica = true)
    (hpr : pyTruthyN (extract_price replica) = true) :
    ∃ c2, process env cfg replica ctx =
        .ok (some (handle_filter_cars env cfg (extract_price replica)
            (extract_car_category cfg replica) ctx).1, c2) ∧
      c2.stats.intent = ctx.stats.intent + 1 ∧
      c2.stats.generate = ctx.stats.generate ∧
      c2.stats.failure = ctx.stats.failure ∧
      c2.last_intent = some "filter_cars" := by
  have hstats := (handle_filter_cars_frame env cfg (extract_price replica)
    (extract_car_category cfg replica) ctx).2.1
  refine ⟨_, process_price_eq env cfg replica ctx hm hpr, ?_, ?_, ?_, rfl⟩
  · simp [update_context, statsAdd_intent, hstats]
  · simp [update_context, statsAdd_intent, hstats]
  · simp [update_context, statsAdd_intent, hstats]

theorem process_price_preempts_dispatch_witness :
    (is_meaningful_text "машины до 1500000" = true ∧
      pyTruthyN (extract_price "машины до 1500000") = true) ∧
    ∃ c2, process envA cfgMain "машины до 1500000" ctxFresh =
        .ok (some (handle_filter_cars envA cfgMain (extract_price "машины до 1500000")
            (extract_car_category cfgMain "машины до 1500000") ctxFresh).1, c2) ∧
      c2.stats.intent = ctxFresh.stats.intent + 1 ∧
      c2.stats.generate = ctxFresh.stats.generate ∧
      c2.stats.failure = ctxFresh.stats.failure ∧
      c2.last_intent = some "filter_cars" :=
  ⟨⟨by decide, by decide⟩,
    process_price_preempts_dispatch envA cfgMain "машины до 1500000" ctxFresh
      (by decide) (by decide)⟩

/-- Claim C6: every successful turn appends the raw utterance to `history`
and keeps only a suffix of the result (oldest entries discarded first), so
for a positive configured bound the history length never exceeds the bound
after any sequence of turns. -/
theorem process_history_bounded (env : Env) (cfg : Config) (replica : String) (ctx : Ctx)
    (aOpt : Option String) (c2 : Ctx) (hl : 0 < cfg.history_limit)
    (hok : process env cfg replica ctx = .ok (aOpt, c2)) :
    c2.history = pySliceLast (ctx.history ++ [replica]) cfg.history_limit ∧
    c2.history.length ≤ cfg.history_limit :=
  ⟨process_history hok, by
    rw [process_history hok]
    exact pySliceLast_length_le _ _ hl⟩

theorem process_history_bounded_witness :
    0 < cfgMain.history_limit ∧
    (Ctx.history ⟨"NONE", none, some "Хорошо!", some "offtopic", ["как дела"], ⟨0, 0, 1⟩⟩ =
        pySliceLast (ctxFresh.history ++ ["как дела"]) cfgMain.history_limit ∧
      (Ctx.history ⟨"NONE", none, some "Хорошо!", some "offtopic",
        ["как дела"], ⟨0, 0, 1⟩⟩).length ≤ cfgMain.history_limit) :=
  ⟨by decide,
    process_history_bounded envA cfgMain "как дела" ctxFresh (some "Хорошо!")
      ⟨"NONE", none, some "Хорошо!", some "offtopic", ["как дела"], ⟨0, 0, 1⟩⟩
      (by decide) (by decide)⟩

/-- Claim C7: every vehicle in the filter algorithm's surviving list (the
list the reply names) comes from a catalog entry that satisfies the truthy
price ceiling and the truthy category constraint, and is not a vehicle whose
identifier is extractable from any utterance of the session's history
window. -/
theorem filteredCars_sound (cfg : Config) (price : Option Nat) (cat : Option String)
    (history : List String) (c : String) (hc : c ∈ filteredCars cfg price cat history) :
    (∃ d : Car, (c, d) ∈ cfg.cars ∧
      (pyTruthyN price = true → d.price ≤ price.getD 0) ∧
      (pyTruthyS cat = true → d.categories.contains (cat.getD "") = true)) ∧
    ∀ h ∈ history, extract_car_name cfg h ≠ some c := by
  unfold filteredCars at hc
  dsimp only at hc
  rw [List.mem_filter] at hc
  obtain ⟨hmem, hrec⟩ := hc
  constructor
  · rcases List.mem_map.mp hmem with ⟨p, hp, rfl⟩
    rw [List.mem_filter] at hp
    obtain ⟨hpm, hpf⟩ := hp
    unfold matchesFilter at hpf
    rw [Bool.and_eq_true] at hpf
    obtain ⟨hp1, hp2⟩ := hpf
    refine ⟨p.2, by simpa using hpm, ?_, ?_⟩
    · intro hpt
      rw [Bool.or_eq_true] at hp1
      rcases hp1 with h | h
      · rw [hpt] at h
        simp at h
      · exact of_decide_eq_true h
    · intro hct
      rw [Bool.or_eq_true] at hp2
      rcases hp2 with h | h
      · rw [hct] at h
        simp at h
      · exact h
  · intro h hh heq
    have h3 : (history.map (extract_car_name cfg)).elem (some c) = true :=
      List.elem_eq_true_of_mem (by
        have h5 := List.mem_map_of_mem (extract_car_name cfg) hh
        rwa [heq] at h5)
    have h4 : (history.map (extract_car_name cfg)).elem (some c) = false := by
      have h5 := hrec
      rw [Bool.not_eq_true'] at h5
      exact h5
    rw [h3] at h4
    cases h4

theorem filteredCars_sound_witness :
    "A" ∈ filteredCars cfgMain (some 1500000) none ["B"] ∧
    ((∃ d : Car, ("A", d) ∈ cfgMain.cars ∧
        (pyTruthyN (some 1500000) = true → d.price ≤ (some 1500000).getD 0) ∧
        (pyTruthyS none = true → d.categories.contains ((none : Option String).getD "") = true)) ∧
      ∀ h ∈ ["B"], extract_car_name cfgMain h ≠ some "A") :=
  ⟨by decide, filteredCars_sound cfgMain (some 1500000) none ["B"] "A" (by decide)⟩

/-- Claim C8: under the artifact assumptions (similarity row as long as the
answer corpus, non-empty lemmatization of the input, non-empty catalog), the
retrieval fallback succeeds exactly when the input is meaningful, the corpus
is non-empty and the arg-max similarity strictly exceeds the threshold; on
success it returns the stored answer at the arg-max index (with the
sentiment suffix and the probabilistic upsell) and sets `last_intent` to
"offtopic"; otherwise it returns none and leaves the context untouched. -/
theorem generate_answer_spec (env : Env) (cfg : Config) (replica : String) (ctx : Ctx)
    (hlen : (env.sims replica).length = cfg.answers.length)
    (hlem : env.lemmatize replica ≠ "")
    (hcars : cfg.cars ≠ []) :
    (is_meaningful_text replica = true → cfg.answers ≠ [] →
      (env.sims replica).getD (argmaxIdx (env.sims replica)) 0 > cfg.dialogues_similarity →
      generate_answer env cfg replica ctx =
        .ok (some (if env.coin03 = true then
            (if env.analyze_sentiment replica = Sentiment.positive then
              cfg.answers.getD (argmaxIdx (env.sims replica)) "" ++
                " Рад, что ты в хорошем настроении! 😊"
            else if env.analyze_sentiment replica = Sentiment.negative then
              cfg.answers.getD (argmaxIdx (env.sims replica)) "" ++
                " Кажется, ты не в духе. Может, новый авто поднимет настроение? 😊"
            else cfg.answers.getD (argmaxIdx (env.sims replica)) "") ++
              " Кстати, у нас есть " ++ env.pick (carKeys cfg) ++ " — отличный выбор!"
          else
            (if env.analyze_sentiment replica = Sentiment.positive then
              cfg.answers.getD (argmaxIdx (env.sims replica)) "" ++
                " Рад, что ты в хорошем настроении! 😊"
            else if env.analyze_sentiment replica = Sentiment.negative then
              cfg.answers.getD (argmaxIdx (env.sims replica)) "" ++
                " Кажется, ты не в духе. Может, новый авто поднимет настроение? 😊"
            else cfg.answers.getD (argmaxIdx (env.sims replica)) "")),
          { ctx with last_intent := some "offtopic" })) ∧
    (¬ (is_meaningful_text replica = true ∧ cfg.answers ≠ [] ∧
        (env.sims replica).getD (argmaxIdx (env.sims replica)) 0 > cfg.dialogues_similarity) →
      generate_answer env cfg replica ctx = .ok (none, ctx)) := by
  constructor
  · intro hm hne hsim
    have hrl : ¬ (env.lemmatize replica = "" ∨ cfg.answers.isEmpty = true) := by
      rintro (h | h)
      · exact hlem h
      · exact hne (eq_nil_of_isEmpty h)
    have hsne : env.sims replica ≠ [] := by
      intro h0
      apply hne
      apply List.eq_nil_of_length_eq_zero
      rw [← hlen, h0]
      rfl
    have hlt : argmaxIdx (env.sims replica) < cfg.answers.length := hlen ▸ argmaxIdx_lt hsne
    have hk : (carKeys cfg).isEmpty = false := by
      unfold carKeys
      cases h : cfg.cars
      · exact absurd h hcars
      · simp
    unfold generate_answer
    dsimp only
    rw [if_neg hrl, if_neg (show ¬¬ is_meaningful_text replica = true by simp [hm]),
      if_neg (show ¬ (env.sims replica).isEmpty = true by
        simp [isEmpty_eq_false_of_ne_nil hsne]),
      if_pos hsim, if_pos hlt]
    cases hcoin : env.coin03
    · simp
    · simp [pyChoice, hk]
  · intro hfail
    unfold generate_answer
    dsimp only
    by_cases hne : cfg.answers = []
    · rw [if_pos (Or.inr (by simp [hne]))]
    · rw [if_neg (show ¬ (env.lemmatize replica = "" ∨ cfg.answers.isEmpty = true) by
        rintro (h | h)
        · exact hlem h
        · exact hne (eq_nil_of_isEmpty h))]
      by_cases hm : is_meaningful_text replica = true
      · have hsim : ¬ (env.sims replica).getD (argmaxIdx (env.sims replica)) 0 >
            cfg.dialogues_similarity := by
          intro hgt
          exact hfail ⟨hm, hne, hgt⟩
        have hsne : env.sims replica ≠ [] := by
          intro h0
          apply hne
          apply List.eq_nil_of_length_eq_zero
          rw [← hlen, h0]
          rfl
        rw [if_neg (show ¬¬ is_meaningful_text replica = true by simp [hm]),
          if_neg (show ¬ (env.sims replica).isEmpty = true by
            simp [isEmpty_eq_false_of_ne_nil hsne]),
          if_neg hsim]
      · rw [if_pos (show ¬ is_meaningful_text replica = true from hm)]

theorem generate_answer_spec_witness :
    ((envA.sims "как дела").length = cfgMain.answers.length ∧
      envA.lemmatize "как дела" ≠ "" ∧ cfgMain.cars ≠ []) ∧
    ((is_meaningful_text "как дела" = true → cfgMain.answers ≠ [] →
        (envA.sims "как дела").getD (argmaxIdx (envA.sims "как дела")) 0 >
          cfgMain.dialogues_similarity →
        generate_answer envA cfgMain "как дела" ctxFresh =
          .ok (some (if envA.coin03 = true then
              (if envA.analyze_sentiment "как дела" = Sentiment.positive then
                cfgMain.answers.getD (argmaxIdx (envA.sims "как дела")) "" ++
                  " Рад, что ты в хорошем настроении! 😊"
              else if envA.analyze_sentiment "как дела" = Sentiment.negative then
                cfgMain.answers.getD (argmaxIdx (envA.sims "как дела")) "" ++
                  " Кажется, ты не в духе. Может, новый авто поднимет настроение? 😊"
              else cfgMain.answers.getD (argmaxIdx (envA.sims "как дела")) "") ++
                " Кстати, у нас есть " ++ envA.pick (carKeys cfgMain) ++ " — отличный выбор!"
            else
              (if envA.analyze_sentiment "как дела" = Sentiment.positive then
                cfgMain.answers.getD (argmaxIdx (envA.sims "как дела")) "" ++
                  " Рад, что ты в хорошем настроении! 😊"
              else if envA.analyze_sentiment "как дела" = Sentiment.negative then
                cfgMain.answers.getD (argmaxIdx (envA.sims "как дела")) "" ++
                  " Кажется, ты не в духе. Может, новый авто поднимет настроение? 😊"
              else cfgMain.answers.getD (argmaxIdx (envA.sims "как дела")) "")),
            { ctxFresh with last_intent := some "offtopic" })) ∧
      (¬ (is_meaningful_text "как дела" = true ∧ cfgMain.answers ≠ [] ∧
          (envA.sims "как дела").getD (argmaxIdx (envA.sims "как дела")) 0 >
            cfgMain.dialogues_similarity) →
        generate_answer envA cfgMain "как дела" ctxFresh = .ok (none, ctxFresh))) :=
  ⟨⟨by decide, by decide, by decide⟩,
    generate_answer_spec envA cfgMain "как дела" ctxFresh (by decide) (by decide) (by decide)⟩

/-- Claim C9: across every branch of a successful turn — the state machine
handlers, the filter algorithm, context-based vehicle resolution — the
session's `current_car`, when set, is a key of the catalog, provided it was
valid before the turn and the random source picks elements of its choice set
(vehicle-name extraction yields catalog keys by construction here). -/
theorem process_preserves_current_car_valid (env : Env) (cfg : Config) (replica : String)
    (ctx : Ctx) (aOpt : Option String) (c2 : Ctx) (hp : PickMem env)
    (hc : CarOk cfg ctx.current_car)
    (hok : process env cfg replica ctx = .ok (aOpt, c2)) :
    CarOk cfg c2.current_car := by
  unfold process at hok
  dsimp only at hok
  repeat' split at hok
  all_goals try cases hok
  all_goals first
    | (exact hc)
    | (exact handle_filter_cars_carOk hp hc)
    | (exact dispatchState_carOk hp hc (show dispatchState _ _ _ _ = Except.ok _ by assumption))

theorem process_preserves_current_car_valid_witness :
    (PickMem envA ∧ CarOk cfgMain ctxFresh.current_car) ∧
    CarOk cfgMain (Ctx.current_car
      ⟨"NONE", none, some "Привет!", some "hello", ["привет"], ⟨1, 0, 0⟩⟩) :=
  ⟨⟨pickMem_envA, carOk_none⟩,
    process_preserves_current_car_valid envA cfgMain "привет" ctxFresh (some "Привет!")
      ⟨"NONE", none, some "Привет!", some "hello", ["привет"], ⟨1, 0, 0⟩⟩
      pickMem_envA carOk_none (by decide)⟩

/-- Claim C10: on a non-meaningful utterance (with a non-empty catalog and a
non-empty failure-template set, so the failure phrase is produced), `process`
leaves `state`, `current_car` and `last_intent` unchanged, and modifies only
`history` (append and trim), `last_bot_response` (the failure reply) and the
failure counter. -/
theorem process_unmeaningful_frame (env : Env) (cfg : Config) (replica : String)
    (ctx : Ctx) (hm : is_meaningful_text replica = false)
    (hcars : cfg.cars ≠ []) (hfail : cfg.failure_phrases ≠ []) :
    ∃ a c2, process env cfg replica ctx = .ok (some a, c2) ∧
      c2.state = ctx.state ∧
      c2.current_car = ctx.current_car ∧
      c2.last_intent = ctx.last_intent ∧
      c2.history = pySliceLast (ctx.history ++ [replica]) cfg.history_limit ∧
      c2.last_bot_response = some a ∧
      c2.stats = ⟨ctx.stats.intent, ctx.stats.generate, ctx.stats.failure + 1⟩ := by
  obtain ⟨a, ha⟩ := get_failure_phrase_ok env cfg replica hcars hfail
  refine ⟨a,
    { update_context cfg ctx replica (some a) none with
      stats := statsAdd (update_context cfg ctx replica (some a) none).stats "failure" },
    ?_, rfl, rfl, rfl, rfl, rfl, rfl⟩
  unfold process
  dsimp only
  rw [if_pos (show ¬ is_meaningful_text replica = true by simp [hm]), ha]

theorem process_unmeaningful_frame_witness :
    (is_meaningful_text "   " = false ∧ cfgMain.cars ≠ [] ∧
      cfgMain.failure_phrases ≠ []) ∧
    ∃ a c2, process envA cfgMain "   " ctxFresh = .ok (some a, c2) ∧
      c2.state = ctxFresh.state ∧
      c2.current_car = ctxFresh.current_car ∧
      c2.last_intent = ctxFresh.last_intent ∧
      c2.history = pySliceLast (ctxFresh.history ++ ["   "]) cfgMain.history_limit ∧
      c2.last_bot_response = some a ∧
      c2.stats = ⟨ctxFresh.stats.intent, ctxFresh.stats.generate, ctxFresh.stats.failure + 1⟩ :=
  ⟨⟨by decide, by decide, by decide⟩,
    process_unmeaningful_frame envA cfgMain "   " ctxFresh (by decide) (by decide) (by decide)⟩

end CarBot
